import Mathlib

/-!
Verification development for the spotmicro quadruped controller.

The Python sources are embedded shallowly:
* angles and gains are rationals (`ℚ`) where only field arithmetic and
  comparisons occur, and reals (`ℝ`) where the source calls `math.sin`,
  `math.cos`, `math.atan2` or `math.sqrt`;
* objects become Lean structures, methods become functions that return the
  updated structure explicitly;
* `time.time()` becomes an explicit `now : ℚ` argument;
* Python decimal literals become the exact rationals they denote
  (`0.01 = 1/100`, `57.2958 = 572958/10000`, ...);
* callbacks that may raise become functions returning `Except String Unit`;
  the caller collects the caught error messages in a list.
-/

namespace SpotMicro

/-! ## Calibration (`microspot_app.py`, class `CalibrationProfile`) -/

/-- One servo record of `CalibrationProfile.servos[channel]` (the fields the
angle computation reads; bookkeeping strings are omitted). -/
structure ServoCal where
  direction : ℚ
  neutral_angle : ℚ
  min_angle : ℚ
  max_angle : ℚ
  calibrated : Bool
deriving DecidableEq

/-- A calibration profile: the `servos` dict, as a partial map from channel
numbers to servo records. -/
structure CalibrationProfile where
  servos : Nat → Option ServoCal

/-- `CalibrationProfile.apply_to_angle` from `microspot_app.py`:
unknown channel returns the input unchanged, otherwise
`clamp(neutral + direction*(angle - 90), min, max)`. -/
def apply_to_angle (p : CalibrationProfile) (channel : Nat) (angle : ℚ) : ℚ :=
  match p.servos channel with
  | none => angle
  | some s =>
      let delta := angle - 90
      let calibrated := s.neutral_angle + s.direction * delta
      max s.min_angle (min s.max_angle calibrated)

/-- The default record `__init__` creates for each configured channel. -/
def defaultServoCal : ServoCal :=
  { direction := 1, neutral_angle := 90, min_angle := 0, max_angle := 180,
    calibrated := false }

/-! ## `set_servo` (`microspot_app.py`) -/

/-- The physical angle `set_servo` sends toward the actuator: calibration is
applied when requested and a profile is loaded, then the result is clamped
to the 180° servo range immediately before the hardware write. -/
def set_servo_sent (cal : Option CalibrationProfile) (channel : Nat)
    (angle : ℚ) (apply_offset : Bool) : ℚ :=
  let actual :=
    match apply_offset, cal with
    | true, some c => apply_to_angle c channel angle
    | _, _ => angle
  max 0 (min 180 actual)

/-! ## Stability monitor (`stability_monitor.py`) -/

/-- `StabilityState` enum. -/
inductive StabilityState where
  | stable
  | warning
  | critical
  | emergency
deriving DecidableEq, Repr

/-- `StabilityThresholds` dataclass. -/
structure StabilityThresholds where
  warning_pitch : ℚ
  warning_roll : ℚ
  critical_pitch : ℚ
  critical_roll : ℚ
  emergency_pitch : ℚ
  emergency_roll : ℚ
deriving DecidableEq

/-- The dataclass defaults: warning 10, critical 20, emergency 30 degrees. -/
def defaultThresholds : StabilityThresholds :=
  { warning_pitch := 10, warning_roll := 10,
    critical_pitch := 20, critical_roll := 20,
    emergency_pitch := 30, emergency_roll := 30 }

/-- A registered state-change listener; `Except` models a callback that may
raise. -/
def Callback : Type :=
  StabilityState → StabilityState → ℚ → ℚ → Except String Unit

/-- The mutable fields of `StabilityMonitor`. -/
structure StabilityMonitor where
  thresholds : StabilityThresholds
  current_state : StabilityState
  previous_state : StabilityState
  last_check_time : ℚ
  pitch : ℚ
  roll : ℚ
  state_start_time : ℚ
  state_history : List (StabilityState × ℚ)
  max_history_length : Nat
  callbacks : List Callback

/-- `StabilityMonitor.__init__` (both `time.time()` reads become `now`). -/
def initMonitor (th : StabilityThresholds) (now : ℚ) : StabilityMonitor :=
  { thresholds := th
    current_state := .stable
    previous_state := .stable
    last_check_time := now
    pitch := 0
    roll := 0
    state_start_time := now
    state_history := []
    max_history_length := 100
    callbacks := [] }

/-- The threshold cascade inside `StabilityMonitor.update` (worst case first,
strict comparisons). -/
def classify (th : StabilityThresholds) (pitch roll : ℚ) : StabilityState :=
  if |pitch| > th.emergency_pitch ∨ |roll| > th.emergency_roll then .emergency
  else if |pitch| > th.critical_pitch ∨ |roll| > th.critical_roll then .critical
  else if |pitch| > th.warning_pitch ∨ |roll| > th.warning_roll then .warning
  else .stable

/-- Run the registered callbacks, catching exceptions: the body of the
`for callback in ...: try/except` loop.  Returns the caught error messages
(the code prints them); the monitor itself is untouched. -/
def runCallbacks (cbs : List Callback) (old new : StabilityState)
    (pitch roll : ℚ) : List String :=
  cbs.filterMap fun c =>
    match c old new pitch roll with
    | .ok _ => none
    | .error e => some e

/-- `StabilityMonitor._handle_state_change`: record the previous state and
its dwell time, trim the history to the last `max_history_length` entries,
start the new state's timer, and notify listeners (errors caught). -/
def handle_state_change (m : StabilityMonitor) (new_state : StabilityState)
    (now : ℚ) : StabilityMonitor × List String :=
  let prev := m.current_state
  let time_in_state := now - m.state_start_time
  let h := m.state_history ++ [(prev, time_in_state)]
  -- `history[-max:]` keeps the last `max` elements (max = 100 > 0 here)
  let h' := if h.length > m.max_history_length
            then h.drop (h.length - m.max_history_length) else h
  let m' := { m with previous_state := prev, state_history := h',
                     current_state := new_state, state_start_time := now }
  (m', runCallbacks m.callbacks prev new_state m.pitch m.roll)

/-- `StabilityMonitor.update`: store the reading, classify, transition when
the class changed, and return the (possibly new) current state, together
with the updated monitor and the caught listener errors. -/
def update (m : StabilityMonitor) (pitch roll now : ℚ) :
    StabilityMonitor × StabilityState × List String :=
  let m1 := { m with pitch := pitch, roll := roll, last_check_time := now }
  let new_state := classify m.thresholds pitch roll
  if new_state ≠ m1.current_state then
    let (m2, errs) := handle_state_change m1 new_state now
    (m2, m2.current_state, errs)
  else
    (m1, m1.current_state, [])

/-- `StabilityMonitor.reset`. -/
def reset (m : StabilityMonitor) (now : ℚ) : StabilityMonitor :=
  { m with current_state := .stable, previous_state := .stable,
           pitch := 0, roll := 0, state_start_time := now,
           state_history := [] }

/-- One externally driven monitor call. -/
inductive MonOp where
  | upd (pitch roll now : ℚ)
  | rst (now : ℚ)

/-- Run a sequence of `update`/`reset` calls. -/
def runOps (ops : List MonOp) (m : StabilityMonitor) : StabilityMonitor :=
  match ops with
  | [] => m
  | .upd p r now :: rest => runOps rest (update m p r now).1
  | .rst now :: rest => runOps rest (reset m now)

/-- The tier cascade in the spec's own words (worst-case first, strict
inequalities), used to compare `update` against the spec. -/
def specTierClassification (th : StabilityThresholds) (pitch roll : ℚ) :
    StabilityState :=
  if |pitch| > th.emergency_pitch ∨ |roll| > th.emergency_roll then .emergency
  else if |pitch| > th.critical_pitch ∨ |roll| > th.critical_roll then .critical
  else if |pitch| > th.warning_pitch ∨ |roll| > th.warning_roll then .warning
  else .stable

/-- Drop the callback list (whose elements have no decidable equality) so
monitors can be compared field by field. -/
def eraseCallbacks (m : StabilityMonitor) : StabilityMonitor :=
  { m with callbacks := [] }

/-! ## Balance controller (`balance.py`) -/

/-- Leg identifiers, the keys of the corrections dict. -/
inductive Leg where
  | FL
  | FR
  | RL
  | RR
deriving DecidableEq, Repr

noncomputable section

open Real in
/-- `math.atan2 y x`: the angle of the point `(x, y)`, with the C/Python
sign conventions (`atan2 0 0 = 0`). -/
def atan2 (y x : ℝ) : ℝ :=
  if 0 < x then arctan (y / x)
  else if x < 0 then
    (if 0 ≤ y then arctan (y / x) + π else arctan (y / x) - π)
  else
    (if 0 < y then π / 2 else if y < 0 then -π / 2 else 0)

/-- The mutable fields of `BalanceController` that the angle pipeline reads
and writes (`57.2958`-degree conversions happen in `_read_raw_angles`). -/
structure BalanceState where
  pitch_offset : ℝ
  roll_offset : ℝ
  kp : ℝ
  pitch_gain : ℝ
  roll_gain : ℝ
  last_pitch : ℝ
  last_roll : ℝ
  last_raw_pitch : ℝ
  last_raw_roll : ℝ
  alpha : ℝ

/-- The field values `BalanceController.__init__` assigns
(kp 0.5, gains 1.0, filter state 0, alpha 0.25). -/
def balanceInit : BalanceState :=
  { pitch_offset := 0, roll_offset := 0, kp := 1/2,
    pitch_gain := 1, roll_gain := 1,
    last_pitch := 0, last_roll := 0,
    last_raw_pitch := 0, last_raw_roll := 0, alpha := 1/4 }

/-- `BalanceController._read_raw_angles` on one accelerometer sample
`(ax, ay, az)` (the non-exception path with the IMU present): samples with
all three axes within 0.01 of zero are rejected in favour of the last
known-good raw values; otherwise pitch/roll are derived by `atan2`,
converted to degrees, and stored as the new last-good values. -/
def read_raw_angles (st : BalanceState) (ax ay az : ℝ) :
    (ℝ × ℝ) × BalanceState :=
  if |ax| < 1/100 ∧ |ay| < 1/100 ∧ |az| < 1/100 then
    ((st.last_raw_pitch, st.last_raw_roll), st)
  else
    let pitch := atan2 ay (Real.sqrt (ax^2 + az^2)) * (572958/10000)
    let roll := atan2 (-ax) az * (572958/10000)
    ((pitch, roll), { st with last_raw_pitch := pitch, last_raw_roll := roll })

/-- `BalanceController.get_angles`: raw read, calibration offset and gain,
then the low-pass filter `alpha*x + (1-alpha)*last`. -/
def get_angles (st : BalanceState) (ax ay az : ℝ) :
    (ℝ × ℝ) × BalanceState :=
  let raw := read_raw_angles st ax ay az
  let pitch0 := (raw.1.1 - st.pitch_offset) * st.pitch_gain
  let roll0 := (raw.1.2 - st.roll_offset) * st.roll_gain
  let pitch := st.alpha * pitch0 + (1 - st.alpha) * st.last_pitch
  let roll := st.alpha * roll0 + (1 - st.alpha) * st.last_roll
  ((pitch, roll), { raw.2 with last_pitch := pitch, last_roll := roll })

/-- `BalanceController.get_correction`: per-leg corrections computed from
the current `get_angles` reading and the proportional gain `kp`. -/
def get_correction (st : BalanceState) (ax ay az : ℝ) :
    (Leg → ℝ) × BalanceState :=
  let angles := get_angles st ax ay az
  let pitch := angles.1.1
  let roll := angles.1.2
  let corrections : Leg → ℝ := fun leg =>
    match leg with
    | .FL => -pitch * st.kp - roll * st.kp * (1/2)
    | .FR => -pitch * st.kp + roll * st.kp * (1/2)
    | .RL => -pitch * st.kp * (1/2) - roll * st.kp * (1/2)
    | .RR => -pitch * st.kp * (1/2) + roll * st.kp * (1/2)
  (corrections, angles.2)

/-! ## Gait (`gait.py`) -/

/-- `DEFAULT_GAIT_PARAMS` (step height/length are `None` until `__init__`
derives them from the knee bend). -/
structure GaitParams where
  cycle_time : ℝ
  step_height : Option ℝ
  step_length : Option ℝ
  speed : ℝ
  rear_lift_boost : ℝ
  ik_step_height : ℝ
  ik_stride_length : ℝ

/-- The literal `DEFAULT_GAIT_PARAMS` dict from `gait.py`. -/
def DEFAULT_GAIT_PARAMS : GaitParams :=
  { cycle_time := 1, step_height := none, step_length := none,
    speed := 1, rear_lift_boost := 6,
    ik_step_height := 3/100, ik_stride_length := 4/100 }

/-- Module-level gait constants. -/
def KNEE_FORWARD_RATIO : ℝ := 7/10

def ANKLE_FORWARD_RATIO : ℝ := 3/10

def ANKLE_LIFT_RATIO : ℝ := 8/10

def HIP_SWING_ANGLE : ℝ := 0

def LATERAL_STEP_ANGLE : ℝ := 15

/-- Walking direction strings accepted by the controller. -/
inductive Direction where
  | forward
  | backward
  | left
  | right
deriving DecidableEq

/-- The logical joint angles of one leg. -/
structure JointAngles where
  hip : ℝ
  knee : ℝ
  ankle : ℝ

/-- `self._rear_ankle_comp`: the fixed per-leg rear-ankle correction,
`{"RL": 0, "RR": 0}` in the source (front legs never look it up). -/
def rear_ankle_comp : Leg → ℤ :=
  fun leg => match leg with
  | .RL => 0
  | .RR => 0
  | _ => 0

/-- `GaitController.set_stand_height`: clamp the knee bend to `[0, 80]`,
compensate the ankle by `int(knee_bend * 1.3)` — which for the clamped
integer range equals `⌊13·kb/10⌋` — and rebuild the four stand poses,
keeping the fixed rear-ankle correction. -/
def set_stand_height (knee_bend : ℤ) : Leg → JointAngles :=
  let kb := max 0 (min 80 knee_bend)
  let ankle_comp : ℤ := 13 * kb / 10
  let knee_angle : ℤ := 90 - kb
  let ankle_angle : ℤ := 90 + ankle_comp
  fun leg => match leg with
  | .FL => ⟨90, (knee_angle : ℝ), (ankle_angle : ℝ)⟩
  | .FR => ⟨90, (knee_angle : ℝ), (ankle_angle : ℝ)⟩
  | .RL => ⟨90, (knee_angle : ℝ), ((ankle_angle + rear_ankle_comp .RL : ℤ) : ℝ)⟩
  | .RR => ⟨90, (knee_angle : ℝ), ((ankle_angle + rear_ankle_comp .RR : ℤ) : ℝ)⟩

/-- The controller fields `_leg_angles_swing` reads.  `step_height` and
`step_length` are the resolved values of `self.params` (in `__init__` the
`None` defaults are replaced by values derived from the knee bend). -/
structure GaitCtl where
  step_height : ℝ
  step_length : ℝ
  direction : Direction
  turn_rate : ℝ
  lateral_rate : ℝ
  stand_angles : Leg → JointAngles

/-- `GaitController._smooth_phase`: cosine easing from linear time `t`. -/
def smooth_phase (t : ℝ) : ℝ :=
  (1 - Real.cos (t * Real.pi)) / 2

/-- `GaitController._leg_angles_swing` (angle-based mode): lift along a
sine arc, reach forward, with turn/lateral modulation; the local
`rear_lift_boost` is hard-coded to `0` in the source, shadowing the gait
parameter. -/
def leg_angles_swing (g : GaitCtl) (phase : ℝ) (leg : Leg) : JointAngles :=
  let step_h := g.step_height
  let step_l := g.step_length
  let stand := g.stand_angles leg
  let dir_mult : ℝ := if g.direction = .backward then -1 else 1
  let stride_mult := if leg = .FL ∨ leg = .RL
                     then 1 - g.turn_rate * (1/2)
                     else 1 + g.turn_rate * (1/2)
  let lift_amount := step_h * Real.sin (phase * Real.pi)
  let rear_lift_boost : ℝ := 0
  let fwd := step_l * stride_mult * dir_mult * (phase * 2 - 1)
  let knee_offset := -(lift_amount + rear_lift_boost) + fwd * KNEE_FORWARD_RATIO
  let ankle_offset := lift_amount * ANKLE_LIFT_RATIO + fwd * ANKLE_FORWARD_RATIO
  let hip_offset := HIP_SWING_ANGLE * (phase * 2 - 1)
  let hip_offset' :=
    if g.lateral_rate ≠ 0 then
      let lateral_amount := LATERAL_STEP_ANGLE * g.lateral_rate * Real.sin (phase * Real.pi)
      if leg = .FL ∨ leg = .RL then hip_offset + lateral_amount
      else hip_offset - lateral_amount
    else hip_offset
  ⟨stand.hip + hip_offset', stand.knee + knee_offset, stand.ankle + ankle_offset⟩

end

/-! ## Concrete fixtures used by counterexamples and witnesses -/

/-- A profile whose only record (channel 0) is calibrated with a neutral
angle outside its own clamp limits — reachable through
`CalibrationProfile.from_dict`, which accepts arbitrary servo records. -/
def badProfile : CalibrationProfile :=
  ⟨fun c => if c = 0 then
      some { direction := 1, neutral_angle := 200, min_angle := 0,
             max_angle := 180, calibrated := true }
    else none⟩

/-- The freshly initialised profile restricted to the 12 leg channels. -/
def sampleProfile : CalibrationProfile :=
  ⟨fun c => if c < 12 then some defaultServoCal else none⟩

/-! ## Claim theorems -/

/-- Claim C1, counterexample: a calibrated record whose `neutral_angle` lies
above its `max_angle` maps logical 90 to the clamp bound 180, not to its
neutral angle 200, so the unconditional "ToPhysical(c,90) = neutral_angle"
part of the claim fails. -/
theorem apply_to_angle_neutral_counterexample :
    ((badProfile.servos 0).getD defaultServoCal).calibrated = true ∧
    apply_to_angle badProfile 0 90 = 180 ∧
    apply_to_angle badProfile 0 90 ≠
      ((badProfile.servos 0).getD defaultServoCal).neutral_angle := by
  have h : apply_to_angle badProfile 0 90 = 180 := by
    simp only [apply_to_angle, badProfile]
    norm_num
  refine ⟨rfl, h, ?_⟩
  rw [h]
  simp only [badProfile, Option.getD_some]
  norm_num

/-- Claim C1 (amended): for a channel present in the profile,
`apply_to_angle` returns `clamp(neutral + direction*(a-90), min, max)`; for
an absent channel it is the identity; and at logical angle 90 it returns the
record's neutral angle provided the record's limits bracket that neutral
angle (`min_angle ≤ neutral_angle ≤ max_angle`). -/
theorem apply_to_angle_spec (p : CalibrationProfile) (c : Nat) (a : ℚ) :
    (∀ s, p.servos c = some s →
      apply_to_angle p c a =
        max s.min_angle (min s.max_angle (s.neutral_angle + s.direction * (a - 90)))) ∧
    (p.servos c = none → apply_to_angle p c a = a) ∧
    (∀ s, p.servos c = some s → s.min_angle ≤ s.neutral_angle →
      s.neutral_angle ≤ s.max_angle → apply_to_angle p c 90 = s.neutral_angle) := by
  refine ⟨fun s hs => ?_, fun hn => ?_, fun s hs h1 h2 => ?_⟩
  · simp [apply_to_angle, hs]
  · simp [apply_to_angle, hn]
  · simp only [apply_to_angle, hs]
    norm_num
    rw [min_eq_right h2, max_eq_right h1]

/-- Claim C1 witness: the amended theorem applied to the default profile at
channel 3 (present, clamp formula and neutral at 90) and channel 15
(absent, identity). -/
theorem apply_to_angle_spec_witness :
    apply_to_angle sampleProfile 3 120 =
      max defaultServoCal.min_angle
        (min defaultServoCal.max_angle
          (defaultServoCal.neutral_angle + defaultServoCal.direction * (120 - 90))) ∧
    apply_to_angle sampleProfile 15 33 = 33 ∧
    apply_to_angle sampleProfile 3 90 = defaultServoCal.neutral_angle :=
  ⟨(apply_to_angle_spec sampleProfile 3 120).1 defaultServoCal (by decide),
   (apply_to_angle_spec sampleProfile 15 33).2.1 (by decide),
   (apply_to_angle_spec sampleProfile 3 90).2.2 defaultServoCal (by decide)
     (by decide) (by decide)⟩

/-- Claim C9: whatever the channel, input angle, calibration profile and
offset flag, the physical angle `set_servo` sends to the actuator lies in
the physical servo range `[0, 180]`. -/
theorem set_servo_sent_in_range (cal : Option CalibrationProfile) (c : Nat)
    (a : ℚ) (off : Bool) :
    0 ≤ set_servo_sent cal c a off ∧ set_servo_sent cal c a off ≤ 180 := by
  refine ⟨le_max_left _ _, max_le (by norm_num) ?_⟩
  exact min_le_left _ _

/-- Equality of the code's threshold cascade and the spec's tier cascade
(they are the same nested conditionals). -/
theorem classify_eq_specTier (th : StabilityThresholds) (p r : ℚ) :
    classify th p r = specTierClassification th p r := rfl

/-- Claim C2: `update` returns exactly the spec's worst-first strict-inequality
tier classification of `(pitch, roll)`, and with the default thresholds
(10/20/30) the four canonical probes yield Stable, Warning, Critical and
Emergency. -/
theorem update_classification_spec :
    (∀ (m : StabilityMonitor) (p r now : ℚ),
      (update m p r now).2.1 = specTierClassification m.thresholds p r) ∧
    (update (initMonitor defaultThresholds 0) 5 5 1).2.1 = .stable ∧
    (update (initMonitor defaultThresholds 0) 12 0 1).2.1 = .warning ∧
    (update (initMonitor defaultThresholds 0) 0 25 1).2.1 = .critical ∧
    (update (initMonitor defaultThresholds 0) 35 0 1).2.1 = .emergency := by
  refine ⟨fun m p r now => ?_, by decide, by decide, by decide, by decide⟩
  rw [← classify_eq_specTier]
  by_cases h : classify m.thresholds p r ≠ m.current_state
  · simp [update, handle_state_change, h]
  · push_neg at h
    simp [update, handle_state_change, h]

/-- Claim C10: when the computed classification equals the current state
(no transition), `update` leaves the state history and the state-start
timer untouched — dwell time keeps accumulating — while the stored pitch,
roll and last-check time are refreshed on every call, transition or not. -/
theorem update_same_state_frame :
    (∀ (m : StabilityMonitor) (p r now : ℚ),
      classify m.thresholds p r = m.current_state →
      (update m p r now).1.state_history = m.state_history ∧
      (update m p r now).1.state_start_time = m.state_start_time) ∧
    (∀ (m : StabilityMonitor) (p r now : ℚ),
      (update m p r now).1.pitch = p ∧ (update m p r now).1.roll = r ∧
      (update m p r now).1.last_check_time = now) := by
  constructor
  · intro m p r now h
    simp [update, h]
  · intro m p r now
    by_cases h : classify m.thresholds p r ≠ m.current_state
    · simp [update, handle_state_change, h]
    · push_neg at h
      simp [update, h]

/-- Claim C10 witness: a fresh monitor at reading (0,0) classifies Stable,
so an `update` at a later time keeps history and state-start time while
refreshing pitch, roll and last-check. -/
theorem update_same_state_frame_witness :
    (update (initMonitor defaultThresholds 0) 0 0 5).1.state_history =
      (initMonitor defaultThresholds 0).state_history ∧
    (update (initMonitor defaultThresholds 0) 0 0 5).1.state_start_time =
      (initMonitor defaultThresholds 0).state_start_time :=
  update_same_state_frame.1 (initMonitor defaultThresholds 0) 0 0 5 (by decide)

/-- Appending one entry and trimming to the last `max_history_length`
elements keeps the history within the cap. -/
theorem handle_history_le (m : StabilityMonitor) (ns : StabilityState) (now : ℚ)
    (hinv : m.state_history.length ≤ m.max_history_length) :
    (handle_state_change m ns now).1.state_history.length ≤ m.max_history_length := by
  simp only [handle_state_change]
  split
  · simp only [List.length_drop]
    omega
  · rename_i hle
    simp only [List.length_append, List.length_cons, List.length_nil] at hle ⊢
    omega

/-- `update` preserves the history cap. -/
theorem update_preserves_inv (m : StabilityMonitor) (p r now : ℚ)
    (hinv : m.state_history.length ≤ m.max_history_length) :
    (update m p r now).1.state_history.length ≤
      (update m p r now).1.max_history_length := by
  by_cases h : classify m.thresholds p r ≠ m.current_state
  · have hh := handle_history_le
      { m with pitch := p, roll := r, last_check_time := now }
      (classify m.thresholds p r) now hinv
    simpa [update, handle_state_change, h] using hh
  · push_neg at h
    simpa [update, h] using hinv

/-- Neither `update` nor a transition changes the configured cap. -/
theorem update_max_history (m : StabilityMonitor) (p r now : ℚ) :
    (update m p r now).1.max_history_length = m.max_history_length := by
  by_cases h : classify m.thresholds p r ≠ m.current_state
  · simp [update, handle_state_change, h]
  · push_neg at h
    simp [update, h]

/-- Any sequence of calls preserves the history cap. -/
theorem runOps_inv (ops : List MonOp) (m : StabilityMonitor)
    (hinv : m.state_history.length ≤ m.max_history_length) :
    (runOps ops m).state_history.length ≤ (runOps ops m).max_history_length := by
  induction ops generalizing m with
  | nil => simpa [runOps] using hinv
  | cons op rest ih =>
    cases op with
    | upd p r now =>
      simp only [runOps]
      exact ih _ (update_preserves_inv m p r now hinv)
    | rst now =>
      simp only [runOps]
      exact ih _ (by simp [reset])

/-- Any sequence of calls leaves `max_history_length` untouched. -/
theorem runOps_max_history (ops : List MonOp) (m : StabilityMonitor) :
    (runOps ops m).max_history_length = m.max_history_length := by
  induction ops generalizing m with
  | nil => rfl
  | cons op rest ih =>
    cases op with
    | upd p r now =>
      simp only [runOps]
      rw [ih ((update m p r now).1), update_max_history]
    | rst now =>
      simp only [runOps]
      rw [ih (reset m now)]
      rfl

/-- Claim C7: starting from a fresh monitor, every sequence of `update` and
`reset` calls keeps the state history within 100 entries (append plus
evict-oldest on each transition), and the outcome of `update` — both the
resulting monitor state and the returned classification — is independent of
the registered change-listeners, whose exceptions are caught and surface
only as a log, never as a propagated error. -/
theorem history_bounded_and_listeners_inert :
    (∀ (th : StabilityThresholds) (t0 : ℚ) (ops : List MonOp),
      (runOps ops (initMonitor th t0)).state_history.length ≤ 100) ∧
    (∀ (m : StabilityMonitor) (cbs cbs' : List Callback) (p r now : ℚ),
      eraseCallbacks (update { m with callbacks := cbs } p r now).1 =
        eraseCallbacks (update { m with callbacks := cbs' } p r now).1 ∧
      (update { m with callbacks := cbs } p r now).2.1 =
        (update { m with callbacks := cbs' } p r now).2.1) := by
  constructor
  · intro th t0 ops
    have h := runOps_inv ops (initMonitor th t0) (by simp [initMonitor])
    rwa [runOps_max_history ops (initMonitor th t0)] at h
  · intro m cbs cbs' p r now
    by_cases h : classify m.thresholds p r ≠ m.current_state
    · constructor <;> simp [update, handle_state_change, eraseCallbacks, h]
    · push_neg at h
      constructor <;> simp [update, eraseCallbacks, h]

/-- Claim C3: a sample with all three axes within 0.01 of zero is rejected —
`_read_raw_angles` returns the stored last-known-good pitch/roll and leaves
the controller state unchanged; any other sample yields the atan2-derived
degrees and replaces the last-good values. -/
theorem read_raw_angles_spec :
    (∀ (st : BalanceState) (ax ay az : ℝ),
      |ax| < 1/100 → |ay| < 1/100 → |az| < 1/100 →
      read_raw_angles st ax ay az = ((st.last_raw_pitch, st.last_raw_roll), st)) ∧
    (∀ (st : BalanceState) (ax ay az : ℝ),
      ¬(|ax| < 1/100 ∧ |ay| < 1/100 ∧ |az| < 1/100) →
      read_raw_angles st ax ay az =
        ((atan2 ay (Real.sqrt (ax^2 + az^2)) * (572958/10000),
          atan2 (-ax) az * (572958/10000)),
         { st with
            last_raw_pitch := atan2 ay (Real.sqrt (ax^2 + az^2)) * (572958/10000),
            last_raw_roll := atan2 (-ax) az * (572958/10000) })) := by
  refine ⟨fun st ax ay az h1 h2 h3 => ?_, fun st ax ay az h => ?_⟩
  · rw [read_raw_angles, if_pos ⟨h1, h2, h3⟩]
  · rw [read_raw_angles, if_neg h]

/-- Claim C3 witness: the near-zero glitch sample (0.001, 0.001, 0.001)
returns the initial last-good pair and does not disturb the state. -/
theorem read_raw_angles_spec_witness :
    read_raw_angles balanceInit (1/1000) (1/1000) (1/1000) =
      ((balanceInit.last_raw_pitch, balanceInit.last_raw_roll), balanceInit) := by
  have h : |(1/1000 : ℝ)| < 1/100 := by
    rw [abs_of_nonneg] <;> norm_num
  exact read_raw_angles_spec.1 balanceInit (1/1000) (1/1000) (1/1000) h h h

/-- Claim C4: `get_correction` distributes the `get_angles` reading exactly
as front = `-pitch*kp ∓ roll*kp*0.5` and rear = the same with the pitch
term halved, and passes the post-read controller state through. -/
theorem get_correction_spec (st : BalanceState) (ax ay az : ℝ) :
    (get_correction st ax ay az).1 Leg.FL =
      -(get_angles st ax ay az).1.1 * st.kp
        - (get_angles st ax ay az).1.2 * st.kp * (1/2) ∧
    (get_correction st ax ay az).1 Leg.FR =
      -(get_angles st ax ay az).1.1 * st.kp
        + (get_angles st ax ay az).1.2 * st.kp * (1/2) ∧
    (get_correction st ax ay az).1 Leg.RL =
      -(get_angles st ax ay az).1.1 * st.kp * (1/2)
        - (get_angles st ax ay az).1.2 * st.kp * (1/2) ∧
    (get_correction st ax ay az).1 Leg.RR =
      -(get_angles st ax ay az).1.1 * st.kp * (1/2)
        + (get_angles st ax ay az).1.2 * st.kp * (1/2) ∧
    (get_correction st ax ay az).2 = (get_angles st ax ay az).2 :=
  ⟨rfl, rfl, rfl, rfl, rfl⟩

/-- Claim C5, counterexample: the configurable rear-lift-boost entry of
`DEFAULT_GAIT_PARAMS` is 6, not zero. -/
theorem rear_lift_boost_default_counterexample :
    DEFAULT_GAIT_PARAMS.rear_lift_boost = 6 ∧
    DEFAULT_GAIT_PARAMS.rear_lift_boost ≠ 0 := by
  refine ⟨rfl, ?_⟩
  rw [show DEFAULT_GAIT_PARAMS.rear_lift_boost = 6 from rfl]
  norm_num

/-- Claim C5 (amended): the configurable rear-lift-boost entry defaults to
6 rather than zero, but the gait math never reads it: for every leg, swing
phase and parameter setting, the swing-phase knee offset is exactly
`-(step_height*sin(phase*pi)) + fwd*0.7`, with no boost term (the source
hard-codes a local boost of 0, shadowing the parameter). -/
theorem swing_knee_no_boost :
    DEFAULT_GAIT_PARAMS.rear_lift_boost = 6 ∧
    ∀ (g : GaitCtl) (phase : ℝ) (leg : Leg),
      (leg_angles_swing g phase leg).knee =
        (g.stand_angles leg).knee +
          (-(g.step_height * Real.sin (phase * Real.pi)) +
            g.step_length *
              (if leg = .FL ∨ leg = .RL then 1 - g.turn_rate * (1/2)
               else 1 + g.turn_rate * (1/2)) *
              (if g.direction = .backward then (-1 : ℝ) else 1) *
              (phase * 2 - 1) * (7/10)) := by
  refine ⟨rfl, fun g phase leg => ?_⟩
  simp only [leg_angles_swing, KNEE_FORWARD_RATIO, add_zero]

/-- Claim C6, counterexample: at `kneeBend = 41` the source computes
`int(41*1.3) = 53` so the ankle is 143, while the claim's un-truncated
formula `90 + 41*1.3` gives 143.3. -/
theorem set_stand_height_ankle_counterexample :
    (set_stand_height 41 Leg.FL).ankle = 143 ∧
    (143 : ℝ) ≠ 90 + 41 * (13/10) := by
  constructor
  · have hz : (90 + 13 * max 0 (min 80 41) / 10 : ℤ) = 143 := by decide
    show ((90 + 13 * max 0 (min 80 41) / 10 : ℤ) : ℝ) = 143
    rw [hz]
    norm_num
  · norm_num

/-- Claim C6 (amended): `set_stand_height` clamps the knee bend to
`[0, 80]` and sets, for every leg, `hip = 90`, `knee = 90 - kneeBend` and
`ankle = 90 + ⌊kneeBend*1.3⌋` plus the fixed per-leg rear-ankle correction;
in particular at `kneeBend = 40` every leg stands at knee 50, ankle 142,
hip 90. -/
theorem set_stand_height_spec :
    (∀ (kb : ℤ) (leg : Leg),
      (set_stand_height kb leg).hip = 90 ∧
      (set_stand_height kb leg).knee = ((90 - max 0 (min 80 kb) : ℤ) : ℝ) ∧
      (set_stand_height kb leg).ankle =
        ((90 + 13 * max 0 (min 80 kb) / 10 + rear_ankle_comp leg : ℤ) : ℝ)) ∧
    (∀ leg : Leg,
      (set_stand_height 40 leg).hip = 90 ∧
      (set_stand_height 40 leg).knee = 50 ∧
      (set_stand_height 40 leg).ankle = 142) := by
  constructor
  · intro kb leg
    cases leg <;> refine ⟨rfl, rfl, ?_⟩ <;> simp [set_stand_height, rear_ankle_comp]
  · intro leg
    have hknee : (90 - max 0 (min 80 40) : ℤ) = 50 := by decide
    have hankle : (90 + 13 * max 0 (min 80 40) / 10 : ℤ) = 142 := by decide
    cases leg <;> refine ⟨rfl, ?_, ?_⟩ <;>
      simp [set_stand_height, rear_ankle_comp, hknee, hankle]

/-- Claim C8: the cosine easing `smooth(t) = (1 - cos(t*pi))/2` satisfies
`smooth(0) = 0`, `smooth(1) = 1`, `smooth(0.5) = 0.5`, and is monotone
non-decreasing on `[0, 1]`. -/
theorem smooth_phase_spec :
    smooth_phase 0 = 0 ∧ smooth_phase 1 = 1 ∧ smooth_phase (1/2) = 1/2 ∧
    ∀ t1 t2 : ℝ, 0 ≤ t1 → t1 ≤ t2 → t2 ≤ 1 →
      smooth_phase t1 ≤ smooth_phase t2 := by
  refine ⟨?_, ?_, ?_, ?_⟩
  · rw [smooth_phase, zero_mul, Real.cos_zero]
    norm_num
  · rw [smooth_phase, one_mul, Real.cos_pi]
    norm_num
  · rw [smooth_phase, show (1/2 : ℝ) * Real.pi = Real.pi / 2 by ring,
        Real.cos_pi_div_two]
    norm_num
  · intro t1 t2 h0 h12 h21
    have hpi := Real.pi_pos.le
    have hc : Real.cos (t2 * Real.pi) ≤ Real.cos (t1 * Real.pi) :=
      Real.cos_le_cos_of_nonneg_of_le_pi (mul_nonneg h0 hpi)
        (by calc t2 * Real.pi ≤ 1 * Real.pi :=
              mul_le_mul_of_nonneg_right h21 hpi
            _ = Real.pi := one_mul _)
        (mul_le_mul_of_nonneg_right h12 hpi)
    rw [smooth_phase, smooth_phase]
    linarith

/-- Claim C8 witness: the monotonicity part applied at the endpoints
`t1 = 0`, `t2 = 1`. -/
theorem smooth_phase_spec_witness :
    smooth_phase 0 ≤ smooth_phase 1 :=
  smooth_phase_spec.2.2.2 0 1 le_rfl zero_le_one le_rfl

end SpotMicro
